import Mathlib

/-
Formal model of the threat scoring engine of the Email Threat Intelligence
browser extension.  The JavaScript sources (analyzer-service.js,
dns-service.js, threat-intel-service.js, helpers.js) are shallowly embedded:
every pure function becomes an executable Lean definition, network and
browser collaborators (fetch based DNS over HTTPS, the URL constructor,
redirect expansion) become an explicit environment record, and JavaScript
exceptions become Except / Option values.  JavaScript regular expression
tests used by the code are expanded into equivalent executable substring
searches over lists of characters, documented next to each definition.
-/

namespace ETI

/-- Lowercase mapping for a single character, as JavaScript toLowerCase acts
on the ASCII range used by the analyzed strings. -/
def lowerChar (c : Char) : Char :=
  if 65 ≤ c.toNat ∧ c.toNat ≤ 90 then Char.ofNat (c.toNat + 32) else c

/-- Model of JavaScript String.prototype.toLowerCase restricted to ASCII. -/
def jsToLower (s : String) : String := String.mk (s.data.map lowerChar)

/-- Character class [a-zA-Z] of JavaScript regular expressions. -/
def isAsciiLetter (c : Char) : Bool :=
  decide ((65 ≤ c.toNat ∧ c.toNat ≤ 90) ∨ (97 ≤ c.toNat ∧ c.toNat ≤ 122))

/-- Character class \d of JavaScript regular expressions. -/
def isAsciiDigit (c : Char) : Bool := decide (48 ≤ c.toNat ∧ c.toNat ≤ 57)

/-- Executable prefix test on character lists. -/
def isPrefixL : List Char → List Char → Bool
  | [], _ => true
  | _ :: _, [] => false
  | a :: as, b :: bs => (a == b) && isPrefixL as bs

/-- All suffixes of a character list, longest first, ending with []. -/
def tailsL : List Char → List (List Char)
  | [] => [[]]
  | c :: cs => (c :: cs) :: tailsL cs

/-- Executable infix (substring) test on character lists. -/
def isInfixL (needle hay : List Char) : Bool := (tailsL hay).any (isPrefixL needle)

/-- Model of JavaScript String.prototype.includes. -/
def strIncludes (s sub : String) : Bool := isInfixL sub.data s.data

/-- Model of JavaScript String.prototype.endsWith. -/
def strEndsWith (s suf : String) : Bool := isPrefixL suf.data.reverse s.data.reverse

/-- Model of JavaScript String.prototype.startsWith. -/
def strStartsWith (s pre : String) : Bool := isPrefixL pre.data s.data

/-- Model of JavaScript String.prototype.split with separator ".". -/
def splitDotL : List Char → List (List Char)
  | [] => [[]]
  | c :: cs =>
    if c == '.' then [] :: splitDotL cs
    else
      match splitDotL cs with
      | [] => [[c]]
      | g :: gs => (c :: g) :: gs

/-- String level wrapper of splitDotL. -/
def splitDot (s : String) : List String := (splitDotL s.data).map String.mk

/-- Model of Array.prototype.join with a separator string. -/
def joinSep (sep : String) : List String → String
  | [] => ""
  | [s] => s
  | s :: rest => s ++ sep ++ joinSep sep rest

/-- Does the string contain any of the given substrings.  This is the test
of a JavaScript regular expression that is an alternation of literals. -/
def anyIncludes (s : String) (subs : List String) : Bool :=
  subs.any (fun sub => strIncludes s sub)

/-- Math.round of n / 10 for a nonnegative integer n: rounding half up. -/
def jsRound10 (n : Nat) : Nat := (n + 5) / 10

/-- Test of the regular expression [a-zA-Z]{n,}: some window of n
consecutive characters consists of ASCII letters. -/
def hasAlphaRunGe (n : Nat) (cs : List Char) : Bool :=
  (tailsL cs).any (fun t => decide (n ≤ t.length) && (t.take n).all isAsciiLetter)

/-- Test of the regular expression \d{n,}: some window of n consecutive
characters consists of ASCII digits. -/
def hasDigitRunGe (n : Nat) (cs : List Char) : Bool :=
  (tailsL cs).any (fun t => decide (n ≤ t.length) && (t.take n).all isAsciiDigit)

/-- Consume exactly n ASCII digits from the front of the list. -/
def takeDigits : List Char → Nat → Option (List Char)
  | cs, 0 => some cs
  | [], _ + 1 => none
  | c :: cs, n + 1 => if isAsciiDigit c then takeDigits cs n else none

/-- Anchored match of the regular expression
\d{1,3}\.\d{1,3}\.\d{1,3}\.\d{1,3} at the start of the list; existence over
all quantifier choices is equivalent to the backtracking search. -/
def matchIPAt (cs : List Char) : Bool :=
  ([1, 2, 3] : List Nat).any fun n1 =>
    match takeDigits cs n1 with
    | some ('.' :: r1) =>
      ([1, 2, 3] : List Nat).any fun n2 =>
        match takeDigits r1 n2 with
        | some ('.' :: r2) =>
          ([1, 2, 3] : List Nat).any fun n3 =>
            match takeDigits r2 n3 with
            | some ('.' :: r3) =>
              match r3 with
              | c :: _ => isAsciiDigit c
              | [] => false
            | _ => false
        | _ => false
    | _ => false

/-- Unanchored test of the IPv4 looking regular expression
\d{1,3}\.\d{1,3}\.\d{1,3}\.\d{1,3} over a string. -/
def testIPPattern (s : String) : Bool := (tailsL s.data).any matchIPAt

/-- Continuation of a JavaScript .* (which does not cross a newline)
followed by an alternation of literal strings: at each position either one
of the literals matches or one more non newline character is consumed. -/
def dotStarThen (seconds : List String) : List Char → Bool
  | [] => seconds.any (fun b => isPrefixL b.data [])
  | c :: cs =>
    (seconds.any fun b => isPrefixL b.data (c :: cs)) ||
      ((c != '\n') && dotStarThen seconds cs)

/-- Test of a regular expression of shape (a1|a2).*(b1|b2): some first
literal occurs and, later on the same line, some second literal occurs. -/
def seqPatternTest (s : String) (firsts seconds : List String) : Bool :=
  (tailsL s.data).any fun t =>
    firsts.any fun a =>
      isPrefixL a.data t && dotStarThen seconds (t.drop a.data.length)

/-- Apostrophe character, needed inside some literal strings of the source. -/
def apos : Char := '\''

/-
Data model.  The record types mirror the object shapes constructed by the
JavaScript engine.  Fields that are left undefined on some code path are
modeled as Option values.
-/

/-- One record of the Answer array of a DNS over HTTPS JSON response. -/
structure DNSRecord where
  data : Option String
  priority : Option Nat
deriving Repr, DecidableEq

/-- Outcome of one DNS over HTTPS fetch: failure stands for a thrown fetch
error or a non ok HTTP response, success carries the optional Answer array
of the JSON body. -/
inductive TransportResult where
  | failure : TransportResult
  | success : Option (List DNSRecord) → TransportResult
deriving Repr, DecidableEq

/-- Components of a parsed URL as exposed by the browser URL constructor. -/
structure UrlObj where
  protocol : String
  hostname : String
  pathname : String
  search : String
deriving Repr, DecidableEq

/-- Environment of external collaborators: the browser URL parser (none
models a thrown TypeError on a malformed URL), best effort redirect
expansion of shortened URLs (none models a thrown fetch error), and the DNS
over HTTPS transport keyed by query name and record type. -/
structure Env where
  parseUrl : String → Option UrlObj
  expand : String → Option String
  dns : String → String → TransportResult

/-- One MX record as returned by getMXRecords. -/
structure MXRecord where
  exchange : Option String
  priority : Nat
deriving Repr, DecidableEq

/-- Result object of getDomainInfo.  The catch branch only sets age and
suspicious, hence the Option fields. -/
structure DomainInfo where
  age : String
  registrar : Option String
  country : Option String
  blacklisted : Option Bool
  suspicious : Bool
deriving Repr, DecidableEq

/-- Metadata derived by the external email parser, read only to the engine. -/
structure Metadata where
  hasAttachments : Bool
  attachmentCount : Nat
  urlCount : Nat
  bodyLength : Nat
  subjectLength : Nat
  senderNamePresent : Bool
  senderNameMatchesDomain : Bool
  hasImages : Nat
  recipientCount : Nat
  isBcc : Bool
  isReply : Bool
  isForward : Bool
  isSpamFolder : Bool
deriving Repr, DecidableEq

/-- One attachment as provided by the external parser. -/
structure AttachmentFacts where
  name : String
  extension : String
deriving Repr, DecidableEq

/-- The EmailFacts input of one analysis request. -/
structure EmailData where
  sender : String
  subject : String
  body : String
  urls : List String
  attachments : List AttachmentFacts
  metadata : Metadata
deriving Repr

/-- Per URL result of analyzeUrl.  The catch branch leaves resolvedUrl and
redirects undefined. -/
structure UrlResult where
  url : String
  resolvedUrl : Option String
  dangerous : Bool
  riskScore : Nat
  flags : List String
  redirects : Option String
deriving Repr, DecidableEq

/-- Aggregate result of analyzeUrls. -/
structure UrlAnalysis where
  urls : List UrlResult
  dangerousUrls : List String
  dangerousCount : Nat
deriving Repr, DecidableEq

/-- Per attachment result of checkAttachment. -/
structure AttachmentResult where
  name : String
  extension : String
  dangerous : Bool
  riskScore : Nat
  flags : List String
deriving Repr, DecidableEq

/-- Aggregate result of analyzeAttachments. -/
structure AttachmentAnalysis where
  attachments : List AttachmentResult
  dangerousCount : Nat
deriving Repr, DecidableEq

/-- Result of analyzeContent. -/
structure ContentAnalysis where
  phishingScore : Nat
  socialEngineering : String
  impersonation : Bool
  shortBodyWithLinks : Bool
  flags : List String
deriving Repr, DecidableEq

/-- Result of analyzeSender.  domainInfo and mxRecords stay undefined in the
catch fallback, hence the Option types; the aggregator reads domainInfo
through optional chaining. -/
structure SenderAnalysis where
  email : String
  domain : Option String
  spf : String
  dkim : String
  dmarc : String
  mxRecords : Option (List MXRecord)
  domainInfo : Option DomainInfo
  reputation : String
  senderRisks : List String
deriving Repr, DecidableEq

/-- Result of checkUrlStructure. -/
structure StructureCheck where
  suspicious : Bool
  reasons : List String
deriving Repr, DecidableEq

/-- Result of ThreatIntelService.checkURL. -/
structure ThreatCheck where
  safe : Bool
  reason : Option String
deriving Repr, DecidableEq

/-- Result of ThreatIntelService.checkDomain. -/
structure DomainCheck where
  suspicious : Bool
  reasons : List String
deriving Repr, DecidableEq

/-- Input object of calculateThreatScore: the four analyzer outputs plus the
raw email metadata. -/
structure Analysis where
  senderAnalysis : SenderAnalysis
  urlAnalysis : UrlAnalysis
  contentAnalysis : ContentAnalysis
  attachmentAnalysis : AttachmentAnalysis
  metadata : Metadata
deriving Repr, DecidableEq

/-- Result of calculateThreatScore. -/
structure ThreatScoreResult where
  score : Nat
  level : String
  recommendation : String
  reasons : List String
deriving Repr, DecidableEq

/-- Result of the public entry point analyzeEmail.  The catch branch omits
the analyzer sub results and carries the error message. -/
structure EmailAnalysisResult where
  threatScore : Nat
  threatLevel : String
  recommendation : String
  reasons : List String
  senderAnalysis : Option SenderAnalysis
  urlAnalysis : Option UrlAnalysis
  contentAnalysis : Option ContentAnalysis
  attachmentAnalysis : Option AttachmentAnalysis
  domainInfo : Option DomainInfo
  emailMetadata : Option Metadata
  error : Option String
deriving Repr, DecidableEq

namespace Helpers

/-- Scanner of the regular expression at sign followed by (.+)$ over a
character list: the first at sign whose remainder up to the end of the
string is nonempty and free of newlines (a dot does not match a newline)
yields the capture; otherwise scanning continues at the next character. -/
def matchAtDomainL : List Char → Option (List Char)
  | [] => none
  | '@' :: rest =>
    if rest ≠ [] ∧ ¬ rest.contains '\n' then some rest else matchAtDomainL rest
  | _ :: rest => matchAtDomainL rest

/-- Model of Helpers.extractDomain: null or empty input gives null, else the
capture of the domain regex, lowercased; no match gives null. -/
def extractDomain (email : String) : Option String :=
  if email = "" then none
  else (matchAtDomainL email.data).map (fun cs => jsToLower (String.mk cs))

end Helpers

namespace DNSService

/-- Model of DNSService.resolve: the transport failure branch and a missing
Answer array both collapse to the empty record list. -/
def resolve (env : Env) (name type : String) : List DNSRecord :=
  match env.dns name type with
  | .failure => []
  | .success none => []
  | .success (some answer) => answer

/-- Predicate of the find call in checkSPF: the record has a data field
containing v=spf1. -/
def spfRecordPred (r : DNSRecord) : Bool := r.data.any (fun d => strIncludes d "v=spf1")

/-- Model of DNSService.checkSPF. -/
def checkSPF (env : Env) (domain : String) : String :=
  let records := resolve env domain "TXT"
  match records.find? spfRecordPred with
  | none => "fail"
  | some spfRecord =>
    match spfRecord.data with
    | none => "fail"
    | some spfData =>
      if strIncludes spfData "~all" || strIncludes spfData "-all" then "pass"
      else "neutral"

/-- Predicate of the find call in checkDMARC: the record has a data field
containing v=DMARC1. -/
def dmarcRecordPred (r : DNSRecord) : Bool := r.data.any (fun d => strIncludes d "v=DMARC1")

/-- First match of the regular expression p=([^;]+): at each occurrence of
the two characters p= the capture is the maximal run of non semicolon
characters; an empty run means no match at this position and scanning
continues one character further. -/
def findPolicyL : List Char → Option String
  | [] => none
  | 'p' :: '=' :: rest =>
    let cap := rest.takeWhile (fun c => c != ';')
    if cap.isEmpty then findPolicyL ('=' :: rest) else some (String.mk cap)
  | _ :: rest => findPolicyL rest

/-- Model of DNSService.checkDMARC. -/
def checkDMARC (env : Env) (domain : String) : String :=
  let dmarcDomain := "_dmarc." ++ domain
  let records := resolve env dmarcDomain "TXT"
  match records.find? dmarcRecordPred with
  | none => "fail"
  | some dmarcRecord =>
    match dmarcRecord.data with
    | none => "fail"
    | some dmarcData =>
      let policy := (findPolicyL dmarcData.data).getD "none"
      if policy = "reject" ∨ policy = "quarantine" then "pass" else "neutral"

/-- Stable insertion keeping earlier records first among equal priorities,
matching the stable JavaScript Array sort with the numeric comparator. -/
def insertByPriority (x : MXRecord) : List MXRecord → List MXRecord
  | [] => [x]
  | y :: ys => if y.priority ≤ x.priority then y :: insertByPriority x ys else x :: y :: ys

/-- Stable sort of MX records ascending by priority. -/
def sortByPriority : List MXRecord → List MXRecord
  | [] => []
  | x :: xs => insertByPriority x (sortByPriority xs)

/-- Model of DNSService.getMXRecords: map each record to exchange and
priority (missing priority becomes 0) and sort ascending by priority; any
failure yields the empty list through resolve. -/
def getMXRecords (env : Env) (domain : String) : List MXRecord :=
  let records := resolve env domain "MX"
  sortByPriority (records.map (fun r => { exchange := r.data, priority := r.priority.getD 0 }))

end DNSService

namespace ThreatIntelService

/-- Test of the SHORT_URL constant, an alternation of literal shortener
names, case insensitive. -/
def shortUrlTest (url : String) : Bool :=
  anyIncludes (jsToLower url) ["bit.ly", "tinyurl", "goo.gl", "ow.ly", "t.co", "short.link"]

/-- Test of the pattern goo.gl slash followed by at least six non slash
characters, case insensitive. -/
def gooGlPathTest (url : String) : Bool :=
  (tailsL (jsToLower url).data).any fun t =>
    isPrefixL "goo.gl/".data t &&
      (let rest := t.drop 7
       decide (6 ≤ rest.length) && (rest.take 6).all (fun c => c != '/'))

/-- Free top level domains flagged as risky; this list is repeated verbatim
in several places of the source. -/
def suspiciousTLDs : List String :=
  [".tk", ".ml", ".ga", ".cf", ".gq", ".top", ".xyz", ".club", ".work", ".info", ".click", ".country"]

/-- Model of ThreatIntelService.checkURL: the static dangerous pattern scan.
The anchored TLD patterns are case insensitive suffix tests. -/
def checkURL (url : String) : ThreatCheck :=
  let dangerousMatch :=
    shortUrlTest url ||
    strIncludes (jsToLower url) "bit.do" ||
    strIncludes (jsToLower url) "tny.im" ||
    gooGlPathTest url ||
    testIPPattern url ||
    suspiciousTLDs.any (fun tld => strEndsWith (jsToLower url) tld)
  if dangerousMatch then { safe := false, reason := some "Suspicious URL pattern detected" }
  else { safe := true, reason := none }

/-- Model of ThreatIntelService.checkDomain, the stateless domain
reputation heuristics. -/
def checkDomain (domain : String) : DomainCheck :=
  let isSuspicious := suspiciousTLDs.any (fun tld => strEndsWith domain tld)
  let isShort := decide (domain.length < 5)
  let subdomains := splitDot domain
  let tooManySubdomains := decide (4 < subdomains.length)
  let lowered := jsToLower domain
  let suspiciousNamePatterns : List String :=
    ["-secure", "-login", "-verify", "-account", "update-", "support-"]
  let hasSuspiciousName := suspiciousNamePatterns.any (fun p => strIncludes lowered p)
  { suspicious := isSuspicious || isShort || tooManySubdomains || hasSuspiciousName,
    reasons :=
      (if isSuspicious then ["Suspicious TLD"] else []) ++
      (if isShort then ["Very short domain"] else []) ++
      (if tooManySubdomains then ["Too many subdomains"] else []) ++
      (if hasSuspiciousName then ["Suspicious domain naming (e.g. login/secure)"] else []) }

/-- Country lookup table keyed by top level domain. -/
def tldCountryMap : List (String × String) :=
  [("us", "United States"), ("uk", "United Kingdom"), ("de", "Germany"),
   ("fr", "France"), ("es", "Spain"), ("it", "Italy"), ("nl", "Netherlands"),
   ("be", "Belgium"), ("se", "Sweden"), ("no", "Norway"), ("dk", "Denmark"),
   ("fi", "Finland"), ("pl", "Poland"), ("ru", "Russia"), ("br", "Brazil"),
   ("ca", "Canada"), ("au", "Australia"), ("nz", "New Zealand"), ("in", "India"),
   ("jp", "Japan"), ("cn", "China"), ("kr", "South Korea"), ("mx", "Mexico"),
   ("ch", "Switzerland"), ("at", "Austria"), ("ie", "Ireland"), ("pt", "Portugal"),
   ("tr", "Türkiye"), ("za", "South Africa"), ("sg", "Singapore"),
   ("hk", "Hong Kong"), ("tw", "Taiwan"),
   ("ai", "Anguilla (\".ai\" hosting)"),
   ("io", "British Indian Ocean Territory (\".io\" hosting)"),
   ("com", "Generic (US-based services often use .com)"),
   ("net", "Generic (US-based services often use .net)"),
   ("org", "Generic (US-based services often use .org)")]

/-- Major mail providers special cased to not suspicious. -/
def majorProviders : List String :=
  ["gmail.com", "googlemail.com", "outlook.com", "hotmail.com", "live.com",
   "yahoo.com", "icloud.com"]

/-- Model of ThreatIntelService.getDomainInfo.  On a null domain the first
two regex tests coerce null to the string null and fail, then the
toLowerCase call throws and the catch returns the fallback object.  The new
domain pattern is four consecutive digits or one of temp, test, fake, case
insensitive. -/
def getDomainInfo : Option String → DomainInfo
  | none =>
    { age := "Unknown", registrar := none, country := none, blacklisted := none,
      suspicious := false }
  | some domain =>
    let isLikelyNew :=
      hasDigitRunGe 4 domain.data || anyIncludes (jsToLower domain) ["temp", "test", "fake"]
    let hasAggressiveBranding :=
      anyIncludes (jsToLower domain) ["free", "bonus", "promo", "deal", "giveaway"]
    let parts := splitDot (jsToLower domain)
    let tld := (parts.getLast?).getD ""
    let country := ((tldCountryMap.find? (fun p => p.1 == tld)).map Prod.snd).getD "Unknown"
    let loweredDomain := jsToLower domain
    if majorProviders.contains loweredDomain then
      { age := "Established provider (age not checked locally)",
        registrar := some "Major email provider (local analysis only)",
        country := some country, blacklisted := some false, suspicious := false }
    else
      { age := if isLikelyNew then "Likely new domain" else "Not available (local analysis only)",
        registrar := some "Not available (local analysis only)",
        country := some country, blacklisted := some false,
        suspicious := isLikelyNew || hasAggressiveBranding }

end ThreatIntelService

namespace AnalyzerService

/-- Extensions treated as outright dangerous. -/
def dangerousExts : List String :=
  ["exe", "bat", "cmd", "scr", "vbs", "js", "jar", "msi", "ps1", "psm1",
   "com", "cpl", "reg", "hta", "lnk", "pif", "msc", "apk", "sh"]

/-- Extensions that are common but require caution. -/
def suspiciousExts : List String :=
  ["zip", "rar", "7z", "tar", "gz", "doc", "docx", "docm", "xls", "xlsx",
   "xlsm", "ppt", "pptx", "pptm", "pdf", "iso", "img"]

/-- Macro enabled Office extensions. -/
def macroExts : List String := ["docm", "xlsm", "pptm"]

/-- Model of AnalyzerService.checkAttachment.  The three mutation stages of
the source (extension branch, macro branch, double extension branch) are
expressed as successive triples of dangerous flag, risk score and flags. -/
def checkAttachment (attachment : AttachmentFacts) : AttachmentResult :=
  let ext := jsToLower attachment.extension
  let step0 : Bool × Nat × List String :=
    if dangerousExts.contains ext then (true, 90, ["Dangerous file type: ." ++ ext])
    else if suspiciousExts.contains ext then (false, 30, ["Requires caution: ." ++ ext])
    else (false, 0, [])
  let step1 : Bool × Nat × List String :=
    if macroExts.contains ext then
      (true, max step0.2.1 80, step0.2.2 ++ ["Macro-enabled Office document"])
    else step0
  let step2 : Bool × Nat × List String :=
    if 2 < (splitDot attachment.name).length then
      (true, step1.2.1 + 40, step1.2.2 ++ ["Double extension detected"])
    else step1
  { name := attachment.name, extension := ext, dangerous := step2.1,
    riskScore := step2.2.1, flags := step2.2.2 }

/-- Model of AnalyzerService.analyzeAttachments. -/
def analyzeAttachments (attachments : List AttachmentFacts) : AttachmentAnalysis :=
  if attachments.isEmpty then { attachments := [], dangerousCount := 0 }
  else
    let results := attachments.map checkAttachment
    { attachments := results,
      dangerousCount := (results.filter (fun r => r.dangerous)).length }

/-- Model of AnalyzerService.checkHomoglyphs: a parse failure is caught and
reported as not detected; otherwise the hostname is scanned for a non ASCII
character (regex char class outside x00 to x7F). -/
def checkHomoglyphs (env : Env) (url : String) : Bool :=
  match env.parseUrl url with
  | none => false
  | some urlObj => urlObj.hostname.data.any (fun c => decide (127 < c.toNat))

/-- Phishing keywords searched in host, path and query by the structural
check. -/
def urlKeywords : List String :=
  ["login", "verify", "account", "secure", "banking", "paypal",
   "reset-password", "password-reset", "update-account", "secure-login",
   "giftcard", "crypto", "bitcoin", "wallet", "invoice", "payment-confirmation"]

/-- Suspicious TLD list as repeated inside analyzer-service.js. -/
def suspiciousTLDs : List String :=
  [".tk", ".ml", ".ga", ".cf", ".gq", ".top", ".xyz", ".club", ".work", ".info", ".click", ".country"]

/-- Model of AnalyzerService.checkUrlStructure.  A parse failure is caught
and reported as not suspicious.  The randomized path check keeps exactly
the source conditions: length of path plus query above 80, more than 40
letters once non letters are removed, and a run of at least 30 letters in
that letters only residue. -/
def checkUrlStructure (env : Env) (url : String) : StructureCheck :=
  match env.parseUrl url with
  | none => { suspicious := false, reasons := [] }
  | some urlObj =>
    let hostname := urlObj.hostname
    let path := urlObj.pathname
    let query := urlObj.search
    let ipCond := testIPPattern hostname
    let tldCond := suspiciousTLDs.any (fun tld => strEndsWith hostname tld)
    let punyCond := strStartsWith hostname "xn--" || strIncludes hostname ".xn--"
    let subCond := decide (4 < (splitDot hostname).length)
    let combined := jsToLower (hostname ++ path ++ query)
    let foundKeywords := urlKeywords.filter (fun k => strIncludes (jsToLower combined) k)
    let kwCond := decide (0 < foundKeywords.length)
    let atCond := strIncludes url "@"
    let httpCond := urlObj.protocol == "http:"
    let pathAndQuery := path ++ query
    let lettersOnly := pathAndQuery.data.filter isAsciiLetter
    let randCond :=
      decide (80 < pathAndQuery.length) &&
        (decide (40 < lettersOnly.length) && hasAlphaRunGe 30 lettersOnly)
    { suspicious := ipCond || tldCond || punyCond || subCond || kwCond || atCond || httpCond || randCond,
      reasons :=
        (if ipCond then ["URL uses IP address"] else []) ++
        (if tldCond then ["Suspicious TLD"] else []) ++
        (if punyCond then ["Punycode domain (possible homograph attack)"] else []) ++
        (if subCond then ["Too many subdomains"] else []) ++
        (if kwCond then ["Suspicious keywords: " ++ joinSep ", " foundKeywords] else []) ++
        (if atCond then ["URL contains @ symbol"] else []) ++
        (if httpCond then ["Not using HTTPS"] else []) ++
        (if randCond then ["Very long randomized URL path"] else []) }

/-- Final URL after the best effort expansion step of analyzeUrl: only URLs
matching the shortener pattern are expanded, an exception during expansion
is swallowed, and an empty or unchanged expansion keeps the original. -/
def expandedUrl (env : Env) (url : String) : String :=
  if ThreatIntelService.shortUrlTest url then
    match env.expand url with
    | none => url
    | some expanded => if expanded != "" && expanded != url then expanded else url
  else url

/-- Redirect description computed alongside expandedUrl. -/
def redirectsOf (env : Env) (url : String) : Option String :=
  if ThreatIntelService.shortUrlTest url then
    match env.expand url with
    | none => none
    | some expanded =>
      if expanded != "" && expanded != url then some (url ++ " → " ++ expanded) else none
  else none

/-- Model of AnalyzerService.analyzeUrl.  The only statement of the guarded
block that can throw is the URL constructor on the resolved URL; its failure
triggers the catch branch with the zero score unable to analyze result. -/
def analyzeUrl (env : Env) (url : String) : UrlResult :=
  let finalUrl := expandedUrl env url
  let redirects := redirectsOf env url
  match env.parseUrl finalUrl with
  | none =>
    { url := url, resolvedUrl := none, dangerous := false, riskScore := 0,
      flags := ["Unable to analyze"], redirects := none }
  | some urlObj =>
    let homoglyph := checkHomoglyphs env finalUrl
    let structureCheck := checkUrlStructure env finalUrl
    let threatCheck := ThreatIntelService.checkURL finalUrl
    let domainCheck := ThreatIntelService.checkDomain urlObj.hostname
    let riskScore :=
      (if homoglyph then 40 else 0) +
      (if structureCheck.suspicious then 30 else 0) +
      (if ¬ threatCheck.safe then 50 else 0) +
      (if domainCheck.suspicious then 20 else 0)
    let flags :=
      (if homoglyph then ["Homoglyph attack detected"] else []) ++
      (if structureCheck.suspicious then structureCheck.reasons else []) ++
      (if ¬ threatCheck.safe then [threatCheck.reason.getD "Flagged as suspicious"] else []) ++
      (if domainCheck.suspicious then domainCheck.reasons else [])
    { url := url, resolvedUrl := some finalUrl, dangerous := decide (50 ≤ riskScore),
      riskScore := riskScore, flags := flags, redirects := redirects }

/-- Model of AnalyzerService.analyzeUrls: at most the first ten URLs are
analyzed, each independently of the others. -/
def analyzeUrls (env : Env) (urls : List String) : UrlAnalysis :=
  if urls.isEmpty then { urls := [], dangerousUrls := [], dangerousCount := 0 }
  else
    let urlResults := (urls.take 10).map (analyzeUrl env)
    let dangerousUrls := (urlResults.filter (fun r => r.dangerous)).map (fun r => r.url)
    { urls := urlResults, dangerousUrls := dangerousUrls,
      dangerousCount := dangerousUrls.length }

/-
Content pattern analyzer.  The weighted rule table of analyzeContent tests
these regular expressions against the lowercased subject plus body:
  urgent|immediately|act now|limited time                           15
  verify your account|confirm your identity                         20
  suspended|locked|restricted|terminated                            18
  click here|click below                                            10
  congratulations|you have won|prize|lottery (with apostrophe ve)   15
  password|credential|authentication                                20
  bank|credit card|payment|billing                                  15
  dear (customer|user|member)                                       10
  invoice|payment due|outstanding (invoice|balance)|past due        15
  (bitcoin|crypto|usdt|ethereum|wallet)                             20
  (gift card|itunes card|google play card|steam card)               20
  (wire transfer|swift|iban|routing number)                         20
  (unusual|suspicious) (sign[- ]?in|login)                          18
  (mailbox|storage).*(full|almost full|quota)                       15
Each alternation of literals becomes an anyIncludes test; the optional
group sign[- ]?in is expanded into its three spellings; the last pattern
uses the dot star search that does not cross newlines. -/
def contentPatterns : List ((String → Bool) × Nat × String) :=
  [(fun t => anyIncludes t ["urgent", "immediately", "act now", "limited time"],
    15, "Urgency manipulation"),
   (fun t => anyIncludes t ["verify your account", "confirm your identity"],
    20, "Account verification phishing"),
   (fun t => anyIncludes t ["suspended", "locked", "restricted", "terminated"],
    18, "Fear-based manipulation"),
   (fun t => anyIncludes t ["click here", "click below"],
    10, "Action pressure"),
   (fun t => anyIncludes t ["congratulations", "you" ++ apos.toString ++ "ve won", "prize", "lottery"],
    15, "Prize scam"),
   (fun t => anyIncludes t ["password", "credential", "authentication"],
    20, "Credential harvesting"),
   (fun t => anyIncludes t ["bank", "credit card", "payment", "billing"],
    15, "Financial information request"),
   (fun t => anyIncludes t ["dear customer", "dear user", "dear member"],
    10, "Generic greeting"),
   (fun t => anyIncludes t ["invoice", "payment due", "outstanding invoice", "outstanding balance", "past due"],
    15, "Invoice or payment pressure"),
   (fun t => anyIncludes t ["bitcoin", "crypto", "usdt", "ethereum", "wallet"],
    20, "Cryptocurrency-related request"),
   (fun t => anyIncludes t ["gift card", "itunes card", "google play card", "steam card"],
    20, "Gift card scam indicators"),
   (fun t => anyIncludes t ["wire transfer", "swift", "iban", "routing number"],
    20, "Wire transfer request"),
   (fun t => anyIncludes t ["unusual signin", "unusual sign-in", "unusual sign in", "unusual login",
                            "suspicious signin", "suspicious sign-in", "suspicious sign in", "suspicious login"],
    18, "Unusual login security alert"),
   (fun t => seqPatternTest t ["mailbox", "storage"] ["full", "almost full", "quota"],
    15, "Mailbox quota phishing")]

/-- Brand list of the impersonation check. -/
def brands : List String :=
  ["paypal", "amazon", "apple", "microsoft", "google", "bank", "netflix",
   "facebook", "instagram", "whatsapp", "uber", "dhl", "fedex"]

/-- Message of the TypeError thrown when the null sender domain is
dereferenced by the impersonation check. -/
def nullIncludesError : String :=
  "TypeError: Cannot read properties of null (reading " ++ apos.toString ++
    "includes" ++ apos.toString ++ ")"

/-- Tail of analyzeContent after the impersonation check: the metadata
driven additions, the short body floor, the clamp and the social
engineering tier, exactly in source order. -/
def finishContent (metadata : Metadata) (shortBodyWithLinks : Bool)
    (phishingScore0 : Nat) (flags0 : List String) (impersonation : Bool) :
    ContentAnalysis :=
  let step1 : Nat × List String :=
    if metadata.hasAttachments && decide (3 < metadata.attachmentCount) then
      (phishingScore0 + 5, flags0 ++ ["Multiple attachments (unusual)"])
    else (phishingScore0, flags0)
  let step2 : Nat × List String :=
    if decide (5 < metadata.urlCount) then
      (step1.1 + 10, step1.2 ++ ["Many embedded links (suspicious)"])
    else step1
  let step3 : Nat × List String :=
    if decide (metadata.bodyLength < 80) && decide (0 < metadata.urlCount) then
      (step2.1 + 15, step2.2 ++ ["Very short body with links (suspicious)"])
    else step2
  let step4 : Nat × List String :=
    if (metadata.isReply == false) && (metadata.isForward == false) && decide (10 < metadata.recipientCount) then
      (step3.1 + 5, step3.2 ++ ["Sent to many recipients"])
    else step3
  let step5 : Nat × List String :=
    if decide (5 < metadata.hasImages) then
      (step4.1 + 5, step4.2 ++ ["Many images in email"])
    else step4
  let floored := if shortBodyWithLinks && decide (step5.1 < 40) then 40 else step5.1
  { phishingScore := min 100 floored,
    socialEngineering :=
      if 40 ≤ floored then "High" else if 20 ≤ floored then "Moderate" else "Low",
    impersonation := impersonation,
    shortBodyWithLinks := shortBodyWithLinks,
    flags := step5.2 }

/-- Model of AnalyzerService.analyzeContent.  The impersonation check
dereferences the sender domain: when a brand is mentioned and the domain is
null the member access throws, modeled by the error branch.  No other
statement of the function can throw. -/
def analyzeContent (emailData : EmailData) : Except String ContentAnalysis :=
  let text := jsToLower (emailData.subject ++ " " ++ emailData.body)
  let metadata := emailData.metadata
  let shortBodyWithLinks := decide (metadata.bodyLength < 80) && decide (0 < metadata.urlCount)
  let patStep :=
    contentPatterns.foldl
      (fun acc pat => if pat.1 text then (acc.1 + pat.2.1, acc.2 ++ [pat.2.2]) else acc)
      ((0 : Nat), ([] : List String))
  let mentionedBrand := brands.find? (fun brand => strIncludes text brand)
  let senderDomain := Helpers.extractDomain emailData.sender
  match mentionedBrand with
  | some brand =>
    match senderDomain with
    | none => .error nullIncludesError
    | some d =>
      if ¬ strIncludes d brand then
        .ok (finishContent metadata shortBodyWithLinks (patStep.1 + 30)
          (patStep.2 ++ ["Impersonation: Mentions " ++ brand]) true)
      else .ok (finishContent metadata shortBodyWithLinks patStep.1 patStep.2 false)
  | none => .ok (finishContent metadata shortBodyWithLinks patStep.1 patStep.2 false)

/-
Threat score aggregator.  The local accumulator variables of
calculateThreatScore become one named definition each, all functions of the
same Analysis input.
-/

/-- Sender component: 40 when SPF differs from pass, 40 when DMARC differs
from pass, 20 when the domain info (read through optional chaining) is
suspicious. -/
def senderScore (a : Analysis) : Nat :=
  (if a.senderAnalysis.spf ≠ "pass" then 40 else 0) +
  (if a.senderAnalysis.dmarc ≠ "pass" then 40 else 0) +
  (if (a.senderAnalysis.domainInfo.map (fun d => d.suspicious)).getD false then 20 else 0)

/-- Content component: the phishing score of the content analysis. -/
def contentScore (a : Analysis) : Nat := a.contentAnalysis.phishingScore

/-- URL component: 80 when some URL is dangerous. -/
def urlScore (a : Analysis) : Nat :=
  if 0 < a.urlAnalysis.dangerousCount then 80 else 0

/-- Attachment component: 90 when some attachment is dangerous. -/
def attachmentScore (a : Analysis) : Nat :=
  if 0 < a.attachmentAnalysis.dangerousCount then 90 else 0

/-- Combined factors: 50 for impersonation with a sender score above 30,
plus 40 for a dangerous URL, with 20 more for a short body with links and
20 more when the email sits in the spam folder. -/
def combinedScore (a : Analysis) : Nat :=
  (if a.contentAnalysis.impersonation ∧ 30 < senderScore a then 50 else 0) +
  (if 0 < a.urlAnalysis.dangerousCount then
    40 + (if a.contentAnalysis.shortBodyWithLinks then 20 else 0) +
      (if a.metadata.isSpamFolder then 20 else 0)
   else 0)

/-- Weighted sum Math.round(sender*0.2 + content*0.5 + url*0.4 +
attachment*0.4 + combined*0.2), computed exactly in tenths. -/
def roundedTotal (a : Analysis) : Nat :=
  jsRound10 (senderScore a * 2 + contentScore a * 5 + urlScore a * 4 +
    attachmentScore a * 4 + combinedScore a * 2)

/-- Override floors applied in source order: social engineering tier,
impersonation, spam folder, and dangerous URL combined with a short body or
the spam folder. -/
def flooredTotal (a : Analysis) : Nat :=
  let t0 := roundedTotal a
  let t1 :=
    if a.contentAnalysis.socialEngineering = "High" then max t0 45
    else if a.contentAnalysis.socialEngineering = "Moderate" then max t0 30
    else t0
  let t2 := if a.contentAnalysis.impersonation then max t1 60 else t1
  let t3 := if a.metadata.isSpamFolder then max t2 40 else t2
  if 0 < a.urlAnalysis.dangerousCount ∧
      (a.contentAnalysis.shortBodyWithLinks ∨ a.metadata.isSpamFolder) then
    max t3 75
  else t3

/-- Final score after the clamp into 0 to 100. -/
def totalScore (a : Analysis) : Nat := min 100 (max 0 (flooredTotal a))

/-- Reason list before truncation, pushed in the fixed source order. -/
def reasonsOf (a : Analysis) : List String :=
  (if 20 < senderScore a then ["Sender authentication failed"] else []) ++
  (if 30 < contentScore a then ["Phishing patterns detected"] else []) ++
  (if 0 < urlScore a then
    [toString a.urlAnalysis.dangerousCount ++ " dangerous URL(s)"] else []) ++
  (if 0 < attachmentScore a then
    [toString a.attachmentAnalysis.dangerousCount ++ " dangerous attachment(s)"] else []) ++
  (if a.contentAnalysis.impersonation then ["Impersonation attempt detected"] else []) ++
  (if a.contentAnalysis.shortBodyWithLinks then ["Short email body with embedded links"] else []) ++
  (if a.metadata.isSpamFolder then ["Email is in Spam folder"] else [])

/-- Model of AnalyzerService.calculateThreatScore. -/
def calculateThreatScore (a : Analysis) : ThreatScoreResult :=
  let score := totalScore a
  if 61 ≤ score then
    { score := score, level := "DANGEROUS",
      recommendation := "DELETE IMMEDIATELY - Do not interact with this email",
      reasons := (reasonsOf a).take 5 }
  else if 31 ≤ score then
    { score := score, level := "SUSPICIOUS",
      recommendation := "EXERCISE CAUTION - Verify sender before taking action",
      reasons := (reasonsOf a).take 5 }
  else
    { score := score, level := "SAFE",
      recommendation := "Email appears safe - Standard caution advised",
      reasons := (reasonsOf a).take 5 }

/-- Model of AnalyzerService.calculateSenderReputation. -/
def calculateSenderReputation (spf dmarc : String) (domainInfo : DomainInfo) : String :=
  let score :=
    (if spf = "pass" then 33 else 0) +
    (if dmarc = "pass" then 33 else 0) +
    (if ¬ domainInfo.suspicious then 34 else 0)
  if 66 ≤ score then "Good" else if 33 ≤ score then "Moderate" else "Poor"

/-- Coercion of a possibly null domain into the string interpolated by the
DNS query URL: JavaScript template literals turn null into the string null. -/
def jsDomainString : Option String → String
  | none => "null"
  | some d => d

/-- String of the BCC sender risk, containing an apostrophe. -/
def bccRisk : String := "Email was BCC" ++ apos.toString ++ "d (unusual)"

/-- Model of AnalyzerService.analyzeSender.  In this model the wrapped SPF
and DMARC checks and the lookups never throw, so the inner error branches
and the outer catch fallback are unreachable; the metadata driven sender
risks are pushed in source order. -/
def analyzeSender (env : Env) (emailData : EmailData) : SenderAnalysis :=
  let sender := emailData.sender
  let domain := Helpers.extractDomain sender
  let metadata := emailData.metadata
  let spf := DNSService.checkSPF env (jsDomainString domain)
  let dmarc := DNSService.checkDMARC env (jsDomainString domain)
  let mxRecords := DNSService.getMXRecords env (jsDomainString domain)
  let domainInfo := ThreatIntelService.getDomainInfo domain
  let senderRisks :=
    (if ¬ metadata.senderNamePresent then ["No sender display name"] else []) ++
    (if metadata.senderNamePresent ∧ ¬ metadata.senderNameMatchesDomain then
      ["Sender name does not match domain"] else []) ++
    (if metadata.isBcc then [bccRisk] else [])
  { email := sender, domain := domain, spf := spf, dkim := "not_checked",
    dmarc := dmarc, mxRecords := some mxRecords, domainInfo := some domainInfo,
    reputation := calculateSenderReputation spf dmarc domainInfo,
    senderRisks := senderRisks }

/-- Model of AnalyzerService.analyzeEmail.  The four analyses of the
Promise.all differ in failure behaviour: only analyzeContent can reject
(TypeError on a null sender domain); a rejection reaches the outer catch,
which returns the degraded default verdict naming the error. -/
def analyzeEmail (env : Env) (emailData : EmailData) : EmailAnalysisResult :=
  match AnalyzerService.analyzeContent emailData with
  | .error e =>
    { threatScore := 50, threatLevel := "SUSPICIOUS",
      recommendation := "Analysis incomplete - exercise caution",
      reasons := ["Analysis error: " ++ e],
      senderAnalysis := none, urlAnalysis := none, contentAnalysis := none,
      attachmentAnalysis := none, domainInfo := none, emailMetadata := none,
      error := some e }
  | .ok contentAnalysis =>
    let senderAnalysis := analyzeSender env emailData
    let urlAnalysis := analyzeUrls env emailData.urls
    let attachmentAnalysis := analyzeAttachments emailData.attachments
    let threatScore := calculateThreatScore
      { senderAnalysis := senderAnalysis, urlAnalysis := urlAnalysis,
        contentAnalysis := contentAnalysis, attachmentAnalysis := attachmentAnalysis,
        metadata := emailData.metadata }
    { threatScore := threatScore.score, threatLevel := threatScore.level,
      recommendation := threatScore.recommendation, reasons := threatScore.reasons,
      senderAnalysis := some senderAnalysis, urlAnalysis := some urlAnalysis,
      contentAnalysis := some contentAnalysis,
      attachmentAnalysis := some attachmentAnalysis,
      domainInfo := senderAnalysis.domainInfo,
      emailMetadata := some emailData.metadata, error := none }

end AnalyzerService

/-
Claim side definitions and concrete inputs used by the theorems below.
-/

/-- Fixed priority table of reason trigger conditions and reason strings,
as published by the specification: sender authentication, phishing
patterns, dangerous URLs, dangerous attachments, impersonation, short body
with links, spam folder. -/
def reasonConditions (a : Analysis) : List (Bool × String) :=
  [(decide (20 < AnalyzerService.senderScore a), "Sender authentication failed"),
   (decide (30 < AnalyzerService.contentScore a), "Phishing patterns detected"),
   (decide (0 < AnalyzerService.urlScore a),
     toString a.urlAnalysis.dangerousCount ++ " dangerous URL(s)"),
   (decide (0 < AnalyzerService.attachmentScore a),
     toString a.attachmentAnalysis.dangerousCount ++ " dangerous attachment(s)"),
   (a.contentAnalysis.impersonation, "Impersonation attempt detected"),
   (a.contentAnalysis.shortBodyWithLinks, "Short email body with embedded links"),
   (a.metadata.isSpamFolder, "Email is in Spam folder")]

/-- Neutral metadata sample used by several concrete inputs. -/
def sampleMetadata : Metadata :=
  { hasAttachments := false, attachmentCount := 0, urlCount := 0, bodyLength := 19,
    subjectLength := 5, senderNamePresent := true, senderNameMatchesDomain := false,
    hasImages := 0, recipientCount := 1, isBcc := false, isReply := false,
    isForward := false, isSpamFolder := false }

/-- Neutral domain info sample. -/
def sampleDomainInfo : DomainInfo :=
  { age := "Not available (local analysis only)",
    registrar := some "Not available (local analysis only)",
    country := some "Unknown", blacklisted := some false, suspicious := false }

/-- Neutral analysis sample: authenticated nothing, no URLs, no
attachments, benign content. -/
def sampleAnalysis : Analysis :=
  { senderAnalysis :=
      { email := "a@example.com", domain := some "example.com", spf := "fail",
        dkim := "not_checked", dmarc := "fail", mxRecords := some [],
        domainInfo := some sampleDomainInfo, reputation := "Poor", senderRisks := [] },
    urlAnalysis := { urls := [], dangerousUrls := [], dangerousCount := 0 },
    contentAnalysis :=
      { phishingScore := 0, socialEngineering := "Low", impersonation := false,
        shortBodyWithLinks := false, flags := [] },
    attachmentAnalysis := { attachments := [], dangerousCount := 0 },
    metadata := sampleMetadata }

/-- Analysis with one dangerous URL and a short body with links. -/
def c2wAnalysis : Analysis :=
  { sampleAnalysis with
    urlAnalysis := { urls := [], dangerousUrls := ["http://evil.example"], dangerousCount := 1 },
    contentAnalysis :=
      { phishingScore := 40, socialEngineering := "High", impersonation := false,
        shortBodyWithLinks := true, flags := [] } }

/-- URL whose path plus query is 82 characters long but holds only 35
letters: above the 80 character bound of the randomized path check yet at
most 40 letters. -/
def c3url : String :=
  "https://example.com/" ++ String.mk (List.replicate 34 'a') ++
    String.mk (List.replicate 46 '1')

/-- Parsed form of c3url. -/
def c3obj : UrlObj :=
  { protocol := "https:", hostname := "example.com",
    pathname := "/" ++ String.mk (List.replicate 34 'a') ++ String.mk (List.replicate 46 '1'),
    search := "" }

/-- Environment whose URL parser knows exactly c3url. -/
def c3env : Env :=
  { parseUrl := fun s => if s = c3url then some c3obj else none,
    expand := fun s => some s,
    dns := fun _ _ => .failure }

/-- URL with 50 letters in a 92 character path: every condition of the
randomized path check holds. -/
def c3wurl : String :=
  "https://example.com/" ++ String.mk (List.replicate 50 'a') ++
    String.mk (List.replicate 41 '1')

/-- Parsed form of c3wurl. -/
def c3wobj : UrlObj :=
  { protocol := "https:", hostname := "example.com",
    pathname := "/" ++ String.mk (List.replicate 50 'a') ++ String.mk (List.replicate 41 '1'),
    search := "" }

/-- Environment whose URL parser knows exactly c3wurl. -/
def c3wenv : Env :=
  { parseUrl := fun s => if s = c3wurl then some c3wobj else none,
    expand := fun s => some s,
    dns := fun _ _ => .failure }

/-- Email whose sender has no at sign and whose body mentions a brand. -/
def c4email : EmailData :=
  { sender := "bahaeddin", subject := "hello",
    body := "your paypal account", urls := [], attachments := [],
    metadata := sampleMetadata }

/-- Same sender without any brand mention in subject or body. -/
def c4emailNoBrand : EmailData :=
  { sender := "bahaeddin", subject := "hello",
    body := "see you at lunch tomorrow", urls := [], attachments := [],
    metadata := sampleMetadata }

/-- Environment for the c4 evaluation: no URLs parse, DNS always fails. -/
def c4env : Env :=
  { parseUrl := fun _ => none, expand := fun s => some s, dns := fun _ _ => .failure }

/-- Environment whose URL parser rejects every URL. -/
def c8env : Env :=
  { parseUrl := fun _ => none, expand := fun s => some s, dns := fun _ _ => .failure }

/-- Environment answering TXT lookups with one SPF record carrying a strict
all qualifier. -/
def c6wenv : Env :=
  { parseUrl := fun _ => none, expand := fun _ => none,
    dns := fun _ t =>
      if t = "TXT" then
        .success (some [{ data := some "v=spf1 include:relay.example.com -all", priority := none }])
      else .failure }

/-- Environment whose DNS transport always fails. -/
def c6fenv : Env :=
  { parseUrl := fun _ => none, expand := fun _ => none, dns := fun _ _ => .failure }

/-- The double extension attachment of the specification scenario. -/
def c7attachment : AttachmentFacts := { name := "invoice.pdf.exe", extension := "exe" }

/-- Analysis whose attachment component is the analysis of exactly the
invoice.pdf.exe attachment. -/
def c7analysis : Analysis :=
  { sampleAnalysis with
    attachmentAnalysis := AnalyzerService.analyzeAttachments [c7attachment] }

/-
Helper lemmas shared by the claim theorems.
-/

theorem score_eq (a : Analysis) :
    (AnalyzerService.calculateThreatScore a).score = AnalyzerService.totalScore a := by
  simp only [AnalyzerService.calculateThreatScore]
  split_ifs <;> rfl

theorem reasons_take_eq (a : Analysis) :
    (AnalyzerService.calculateThreatScore a).reasons = (AnalyzerService.reasonsOf a).take 5 := by
  simp only [AnalyzerService.calculateThreatScore]
  split_ifs <;> rfl

theorem totalScore_le_100 (a : Analysis) : AnalyzerService.totalScore a ≤ 100 := by
  unfold AnalyzerService.totalScore
  omega

theorem level_dangerous_of_61 (a : Analysis) (h : 61 ≤ AnalyzerService.totalScore a) :
    (AnalyzerService.calculateThreatScore a).level = "DANGEROUS" := by
  simp only [AnalyzerService.calculateThreatScore]
  split_ifs
  rfl

theorem mem_ite_singleton {c : Prop} [Decidable c] {x s : String} :
    x ∈ (if c then [s] else ([] : List String)) ↔ c ∧ x = s := by
  split_ifs with h <;> simp [h]

theorem randFlag_ne_keywords (ks : String) :
    ¬("Very long randomized URL path" = "Suspicious keywords: " ++ ks) := by
  intro h
  have h2 : ("Very long randomized URL path").data = ("Suspicious keywords: " ++ ks).data := by
    rw [h]
  rw [String.data_append] at h2
  simp at h2

set_option maxHeartbeats 2000000 in
theorem totalScore_mono_spamFolder (a : Analysis) :
    AnalyzerService.totalScore { a with metadata := { a.metadata with isSpamFolder := false } } ≤
      AnalyzerService.totalScore { a with metadata := { a.metadata with isSpamFolder := true } } := by
  obtain ⟨sa, ⟨uurls, udang, dc⟩, ⟨ps, soc, imp, short, cfl⟩, ⟨aatt, adc⟩, md⟩ := a
  obtain ⟨mha, mac, muc, mbl, msl, msnp, msnmd, mhi, mrc, mbcc, mrep, mfwd, mspam⟩ := md
  cases imp <;> cases short <;>
    (unfold AnalyzerService.totalScore AnalyzerService.flooredTotal
      AnalyzerService.roundedTotal jsRound10 AnalyzerService.combinedScore
      AnalyzerService.urlScore AnalyzerService.attachmentScore
      AnalyzerService.senderScore AnalyzerService.contentScore
     simp only [Bool.false_eq_true, and_false, and_true, false_or, or_true, or_false,
       if_false, if_true, ite_false, ite_true, Bool.true_eq_false, false_and, true_and]
     simp
     split_ifs <;> omega)

set_option maxHeartbeats 2000000 in
theorem totalScore_mono_dangerousCount (a : Analysis) (k : Nat) (hk : 0 < k) :
    AnalyzerService.totalScore { a with urlAnalysis := { a.urlAnalysis with dangerousCount := 0 } } ≤
      AnalyzerService.totalScore { a with urlAnalysis := { a.urlAnalysis with dangerousCount := k } } := by
  obtain ⟨sa, ⟨uurls, udang, dc⟩, ⟨ps, soc, imp, short, cfl⟩, ⟨aatt, adc⟩, md⟩ := a
  obtain ⟨mha, mac, muc, mbl, msl, msnp, msnmd, mhi, mrc, mbcc, mrep, mfwd, mspam⟩ := md
  cases imp <;> cases short <;> cases mspam <;>
    (unfold AnalyzerService.totalScore AnalyzerService.flooredTotal
      AnalyzerService.roundedTotal jsRound10 AnalyzerService.combinedScore
      AnalyzerService.urlScore AnalyzerService.attachmentScore
      AnalyzerService.senderScore AnalyzerService.contentScore
     simp only [Bool.false_eq_true, and_false, and_true, false_or, or_true, or_false,
       if_false, if_true, ite_false, ite_true, Bool.true_eq_false, false_and, true_and]
     simp
     split_ifs <;> omega)

/-
Claim theorems.
-/

/-- C1: for every combination of analyzer outputs and metadata passed to
calculateThreatScore, the returned score lies between 0 and 100 and the
returned level is exactly the band containing the score: DANGEROUS exactly
when the score is at least 61, SUSPICIOUS exactly between 31 and 60, SAFE
exactly when at most 30. -/
theorem c1_score_bounds_and_level_bands (a : Analysis) :
    0 ≤ (AnalyzerService.calculateThreatScore a).score ∧
    (AnalyzerService.calculateThreatScore a).score ≤ 100 ∧
    ((AnalyzerService.calculateThreatScore a).level = "DANGEROUS" ↔
      61 ≤ (AnalyzerService.calculateThreatScore a).score) ∧
    ((AnalyzerService.calculateThreatScore a).level = "SUSPICIOUS" ↔
      (31 ≤ (AnalyzerService.calculateThreatScore a).score ∧
        (AnalyzerService.calculateThreatScore a).score ≤ 60)) ∧
    ((AnalyzerService.calculateThreatScore a).level = "SAFE" ↔
      (AnalyzerService.calculateThreatScore a).score ≤ 30) := by
  have hb := totalScore_le_100 a
  simp only [AnalyzerService.calculateThreatScore]
  split_ifs with h1 h2 <;> simp_all <;> omega

/-- C2: for every input to calculateThreatScore with a positive dangerous
URL count and either a short body with links or the spam folder flag, the
returned score is at least 75 and the returned level is DANGEROUS. -/
theorem c2_dangerous_url_with_short_body_or_spam (a : Analysis)
    (hdc : 0 < a.urlAnalysis.dangerousCount)
    (hsig : a.contentAnalysis.shortBodyWithLinks = true ∨ a.metadata.isSpamFolder = true) :
    75 ≤ (AnalyzerService.calculateThreatScore a).score ∧
    (AnalyzerService.calculateThreatScore a).level = "DANGEROUS" := by
  have hc : 0 < a.urlAnalysis.dangerousCount ∧
      (a.contentAnalysis.shortBodyWithLinks = true ∨ a.metadata.isSpamFolder = true) :=
    ⟨hdc, hsig⟩
  have h75 : 75 ≤ AnalyzerService.flooredTotal a := by
    unfold AnalyzerService.flooredTotal
    simp only [if_pos hc]
    exact Nat.le_max_right _ _
  have hs : 75 ≤ AnalyzerService.totalScore a := by
    unfold AnalyzerService.totalScore
    omega
  exact ⟨by rw [score_eq]; exact hs, level_dangerous_of_61 a (by omega)⟩

/-- C2 witness: a concrete analysis with one dangerous URL and a short body
with links reaches at least 75 and the DANGEROUS level. -/
theorem c2_dangerous_url_with_short_body_or_spam_witness :
    75 ≤ (AnalyzerService.calculateThreatScore c2wAnalysis).score ∧
    (AnalyzerService.calculateThreatScore c2wAnalysis).level = "DANGEROUS" :=
  c2_dangerous_url_with_short_body_or_spam c2wAnalysis (by decide) (Or.inl (by decide))

/-- C3 counterexample: a parsed URL whose path plus query is 82 characters
long and whose letters only residue is a run of 35 letters satisfies the
condition stated by the claim (length above 80 and a letter run of at least
30), yet the structural check does not raise the long randomized path flag,
because the source additionally requires more than 40 letters. -/
theorem c3_counterexample_long_path_without_flag :
    c3env.parseUrl c3url = some c3obj ∧
    (80 < (c3obj.pathname ++ c3obj.search).length ∧
      hasAlphaRunGe 30 ((c3obj.pathname ++ c3obj.search).data.filter isAsciiLetter) = true) ∧
    "Very long randomized URL path" ∉ (AnalyzerService.checkUrlStructure c3env c3url).reasons := by
  refine ⟨by decide, ⟨by decide, by decide⟩, by decide⟩

/-- C3 amended: for every environment and URL that parses, the structural
check raises the long randomized path flag exactly when the concatenation
of path and query is longer than 80 characters, its letters only content is
longer than 40 characters, and that content holds a run of at least 30
alphabetic characters. -/
theorem c3_amended_randomized_path_flag_iff (env : Env) (url : String) (u : UrlObj)
    (h : env.parseUrl url = some u) :
    ("Very long randomized URL path" ∈ (AnalyzerService.checkUrlStructure env url).reasons ↔
      (80 < (u.pathname ++ u.search).length ∧
       40 < ((u.pathname ++ u.search).data.filter isAsciiLetter).length ∧
       hasAlphaRunGe 30 ((u.pathname ++ u.search).data.filter isAsciiLetter) = true)) := by
  unfold AnalyzerService.checkUrlStructure
  rw [h]
  simp only [List.mem_append, mem_ite_singleton, Bool.and_eq_true, decide_eq_true_eq]
  simp +decide [randFlag_ne_keywords]

/-- C3 amended witness: a URL with 50 letters in a 92 character path gets
the long randomized path flag. -/
theorem c3_amended_randomized_path_flag_iff_witness :
    "Very long randomized URL path" ∈
      (AnalyzerService.checkUrlStructure c3wenv c3wurl).reasons :=
  (c3_amended_randomized_path_flag_iff c3wenv c3wurl c3wobj (by decide)).mpr
    ⟨by decide, by decide, by decide⟩

/-- C4: evaluation of the code at the failing input.  The sender string
bahaeddin has no extractable domain, and because the body mentions the
brand paypal the impersonation check dereferences the null domain:
analyzeContent throws a TypeError and the public entry point returns the
whole email error verdict (score 50, SUSPICIOUS) instead of a normally
analyzed ThreatVerdict; the same email without a brand mention is analyzed
normally. -/
theorem c4_missing_domain_brand_mention_error_path :
    Helpers.extractDomain "bahaeddin" = none ∧
    AnalyzerService.analyzeContent c4email = Except.error AnalyzerService.nullIncludesError ∧
    AnalyzerService.analyzeEmail c4env c4email =
      { threatScore := 50, threatLevel := "SUSPICIOUS",
        recommendation := "Analysis incomplete - exercise caution",
        reasons := ["Analysis error: " ++ AnalyzerService.nullIncludesError],
        senderAnalysis := none, urlAnalysis := none, contentAnalysis := none,
        attachmentAnalysis := none, domainInfo := none, emailMetadata := none,
        error := some AnalyzerService.nullIncludesError } ∧
    (AnalyzerService.analyzeEmail c4env c4emailNoBrand).error = none := by
  refine ⟨rfl, rfl, rfl, rfl⟩

/-- C5: calculateThreatScore is monotone in the named single signal
changes: with all other inputs fixed, turning the spam folder flag from
false to true never decreases the score, and raising the dangerous URL
count from 0 to any positive value never decreases the score. -/
theorem c5_single_signal_monotonicity (a : Analysis) (k : Nat) (hk : 0 < k) :
    (AnalyzerService.calculateThreatScore
        { a with metadata := { a.metadata with isSpamFolder := false } }).score ≤
      (AnalyzerService.calculateThreatScore
        { a with metadata := { a.metadata with isSpamFolder := true } }).score ∧
    (AnalyzerService.calculateThreatScore
        { a with urlAnalysis := { a.urlAnalysis with dangerousCount := 0 } }).score ≤
      (AnalyzerService.calculateThreatScore
        { a with urlAnalysis := { a.urlAnalysis with dangerousCount := k } }).score := by
  rw [score_eq, score_eq, score_eq, score_eq]
  exact ⟨totalScore_mono_spamFolder a, totalScore_mono_dangerousCount a k hk⟩

/-- C5 witness: both monotonicity conclusions at a concrete analysis and
count 1. -/
theorem c5_single_signal_monotonicity_witness :
    (AnalyzerService.calculateThreatScore
        { sampleAnalysis with
          metadata := { sampleAnalysis.metadata with isSpamFolder := false } }).score ≤
      (AnalyzerService.calculateThreatScore
        { sampleAnalysis with
          metadata := { sampleAnalysis.metadata with isSpamFolder := true } }).score ∧
    (AnalyzerService.calculateThreatScore
        { sampleAnalysis with
          urlAnalysis := { sampleAnalysis.urlAnalysis with dangerousCount := 0 } }).score ≤
      (AnalyzerService.calculateThreatScore
        { sampleAnalysis with
          urlAnalysis := { sampleAnalysis.urlAnalysis with dangerousCount := 1 } }).score :=
  c5_single_signal_monotonicity sampleAnalysis 1 (by decide)

/-- C6: checkSPF returns fail when the DNS transport fails and when no TXT
record containing v=spf1 is found; when an SPF record is found it returns
pass exactly when that record contains a tilde all or dash all qualifier,
and neutral otherwise, so a lookup error never yields pass or neutral. -/
theorem c6_checkSPF_fail_closed (env : Env) (domain : String) :
    (env.dns domain "TXT" = .failure → DNSService.checkSPF env domain = "fail") ∧
    ((DNSService.resolve env domain "TXT").find? DNSService.spfRecordPred = none →
      DNSService.checkSPF env domain = "fail") ∧
    (∀ r d, (DNSService.resolve env domain "TXT").find? DNSService.spfRecordPred = some r →
      r.data = some d →
      ((DNSService.checkSPF env domain = "pass" ↔
          (strIncludes d "~all" = true ∨ strIncludes d "-all" = true)) ∧
       ((strIncludes d "~all" = false ∧ strIncludes d "-all" = false) →
          DNSService.checkSPF env domain = "neutral"))) := by
  refine ⟨?_, ?_, ?_⟩
  · intro h
    simp only [DNSService.checkSPF, DNSService.resolve, h, List.find?_nil]
  · intro h
    simp only [DNSService.checkSPF, h]
  · intro r d hr hd
    have hmain : DNSService.checkSPF env domain =
        (if (strIncludes d "~all" || strIncludes d "-all") = true then "pass" else "neutral") := by
      simp only [DNSService.checkSPF, hr, hd]
    constructor
    · rw [hmain]
      split_ifs with hall
      · simp only [Bool.or_eq_true] at hall
        simp [hall]
      · simp only [Bool.or_eq_true] at hall
        push_neg at hall
        constructor
        · intro habs
          exact absurd habs (by decide)
        · intro hor
          rcases hor with h1 | h1 <;> simp_all
    · intro hno
      rw [hmain, if_neg]
      simp [hno.1, hno.2]

/-- C6 witness: a transport carrying one strict SPF record yields pass, and
a failing transport yields fail. -/
theorem c6_checkSPF_fail_closed_witness :
    DNSService.checkSPF c6wenv "example.com" = "pass" ∧
    DNSService.checkSPF c6fenv "example.com" = "fail" := by
  constructor
  · exact ((c6_checkSPF_fail_closed c6wenv "example.com").2.2
      { data := some "v=spf1 include:relay.example.com -all", priority := none }
      "v=spf1 include:relay.example.com -all" (by decide) rfl).1.mpr (Or.inr (by decide))
  · exact (c6_checkSPF_fail_closed c6fenv "example.com").1 rfl

/-- C7: the attachment invoice.pdf.exe takes both the dangerous extension
branch (90) and the double extension branch (plus 40), giving the
unclamped per attachment score 130 with the dangerous flag; the email
level aggregation over exactly this attachment yields dangerousCount 1 and
an attachment component score of 90. -/
theorem c7_double_extension_attachment_scores :
    (AnalyzerService.checkAttachment c7attachment).dangerous = true ∧
    (AnalyzerService.checkAttachment c7attachment).riskScore = 130 ∧
    (AnalyzerService.analyzeAttachments [c7attachment]).dangerousCount = 1 ∧
    AnalyzerService.attachmentScore c7analysis = 90 := by
  refine ⟨by decide, by decide, by decide, by decide⟩

/-- C8: for every environment and URL whose resolved form fails to parse
(the only throwing step of the per URL pipeline), analyzeUrl returns the
recovered result with score 0, dangerous false and the single flag Unable
to analyze; and for every URL list the results are exactly the independent
analyses of the first ten URLs, so one failing URL never prevents the
others from being analyzed. -/
theorem c8_unanalyzable_url_recovered_locally (env : Env) (url : String)
    (h : env.parseUrl (AnalyzerService.expandedUrl env url) = none) :
    AnalyzerService.analyzeUrl env url =
      { url := url, resolvedUrl := none, dangerous := false, riskScore := 0,
        flags := ["Unable to analyze"], redirects := none } ∧
    (∀ urls : List String,
      (AnalyzerService.analyzeUrls env urls).urls =
        (urls.take 10).map (AnalyzerService.analyzeUrl env)) := by
  constructor
  · simp only [AnalyzerService.analyzeUrl, h]
  · intro urls
    cases urls with
    | nil => simp [AnalyzerService.analyzeUrls]
    | cons u us => simp [AnalyzerService.analyzeUrls]

/-- C8 witness: with a parser rejecting every URL, a concrete URL gets the
unable to analyze result and a concrete two element list is analyzed
element by element. -/
theorem c8_unanalyzable_url_recovered_locally_witness :
    AnalyzerService.analyzeUrl c8env "http://bad" =
      { url := "http://bad", resolvedUrl := none, dangerous := false, riskScore := 0,
        flags := ["Unable to analyze"], redirects := none } ∧
    (AnalyzerService.analyzeUrls c8env ["http://bad", "https://ok"]).urls =
      [AnalyzerService.analyzeUrl c8env "http://bad",
       AnalyzerService.analyzeUrl c8env "https://ok"] := by
  have h := c8_unanalyzable_url_recovered_locally c8env "http://bad" rfl
  refine ⟨h.1, ?_⟩
  rw [h.2]
  rfl

set_option maxHeartbeats 4000000 in
/-- C9: for every input, the reason list of calculateThreatScore equals the
fixed priority table filtered by its trigger conditions, truncated to the
first five entries, and its length is at most five. -/
theorem c9_reasons_priority_order_and_cap (a : Analysis) :
    (AnalyzerService.calculateThreatScore a).reasons =
      (((reasonConditions a).filter (fun p => p.1)).map (fun p => p.2)).take 5 ∧
    (AnalyzerService.calculateThreatScore a).reasons.length ≤ 5 := by
  have h : AnalyzerService.reasonsOf a =
      ((reasonConditions a).filter (fun p => p.1)).map (fun p => p.2) := by
    unfold AnalyzerService.reasonsOf reasonConditions
    simp only [List.filter_cons, List.filter_nil, decide_eq_true_eq]
    split_ifs <;> simp
  refine ⟨by rw [reasons_take_eq, h], ?_⟩
  rw [reasons_take_eq]
  simp [List.length_take]

/-- C10: for every attachment, the dangerous flag of checkAttachment is
consistent with the per attachment score: dangerous implies a score of at
least 40, not dangerous implies a score of at most 30. -/
theorem c10_attachment_flag_score_consistency (att : AttachmentFacts) :
    ((AnalyzerService.checkAttachment att).dangerous = true →
      40 ≤ (AnalyzerService.checkAttachment att).riskScore) ∧
    ((AnalyzerService.checkAttachment att).dangerous = false →
      (AnalyzerService.checkAttachment att).riskScore ≤ 30) := by
  unfold AnalyzerService.checkAttachment
  dsimp only
  split_ifs <;> simp_all

/-- C10 witness: a plain executable attachment is dangerous with score at
least 40. -/
theorem c10_attachment_flag_score_consistency_witness :
    (AnalyzerService.checkAttachment { name := "run.exe", extension := "exe" }).dangerous = true ∧
    40 ≤ (AnalyzerService.checkAttachment { name := "run.exe", extension := "exe" }).riskScore :=
  ⟨by decide,
   (c10_attachment_flag_score_consistency { name := "run.exe", extension := "exe" }).1 (by decide)⟩

end ETI
